import Mathlib

/-! # Verification of the OBS stream-control client

Shallow embedding of the repository's two Python files:

* `obs_live.py` — the `OBSController` class: WebSocket handshake with
  challenge–response authentication, start/stop/status commands, time-of-day
  scheduling, and disconnect.
* `obs-auto.py` — the trigger entry point `start_stream` that opens a fresh
  controller, starts streaming and tears the session down.

The transport is modelled as a script of incoming events: each `recv()`
(together with the `json.loads` applied to its result) either yields a parsed
JSON value or raises.  Sent messages are recorded at envelope granularity
(the JSON value passed to `json.dumps`).  Python exceptions are the `PyErr`
type below; `try`/`except` blocks become matches on `Except` values.
-/

namespace OBS

/-- Parsed JSON values, as produced by `json.loads`.  Numbers are modelled as
integers (all numbers appearing in the protocol envelopes are integers);
floating-point numbers are not modelled. -/
inductive Json where
  | null
  | bool (b : Bool)
  | num (n : Int)
  | str (s : String)
  | arr (xs : List Json)
  | obj (fields : List (String × Json))

/-- Python exceptions that the embedded code can raise.  `generic` carries the
message of a plain `Exception(...)`. -/
inductive PyErr where
  | keyError (k : String)
  | typeError
  | valueError
  | connectionRefused
  | transportClosed
  | jsonDecodeError
  | generic (msg : String)
  deriving Repr, DecidableEq

/-- Python subscript `j[k]` with a string key: a dict lookup that raises
`KeyError` when the key is missing, and `TypeError` on every non-dict value. -/
def Json.get (j : Json) (k : String) : Except PyErr Json :=
  match j with
  | .obj fields =>
    match fields.lookup k with
    | some v => .ok v
    | none => .error (.keyError k)
  | _ => .error .typeError

/-- Python substring test `needle in hay` on strings. -/
def strIn (needle hay : String) : Bool :=
  go needle.toList hay.toList
where
  go (n : List Char) : List Char → Bool
    | [] => n.isPrefixOf []
    | c :: t => n.isPrefixOf (c :: t) || go n t

/-- Python membership test `k in j`: key lookup on a dict, element comparison
on a list (a non-string element never equals a string), substring test on a
string, `TypeError` otherwise. -/
def Json.hasKey (j : Json) (k : String) : Except PyErr Bool :=
  match j with
  | .obj fields => .ok (fields.lookup k).isSome
  | .arr xs => .ok (xs.any fun x => match x with | .str s => s == k | _ => false)
  | .str s => .ok (strIn k s)
  | _ => .error .typeError

/-- Python truthiness of a JSON value (`if v:`). -/
def Json.truthy : Json → Bool
  | .null => false
  | .bool b => b
  | .num n => n != 0
  | .str s => s != ""
  | .arr xs => !xs.isEmpty
  | .obj fields => !fields.isEmpty

/-- Chained subscripts `j[k₁][k₂]…`: the first failing lookup's exception
propagates. -/
def Json.getPath (j : Json) : List String → Except PyErr Json
  | [] => .ok j
  | k :: ks =>
    match j.get k with
    | .ok v => v.getPath ks
    | .error e => .error e

/-- Python `str()` of a value as interpolated by an f-string.  String escaping
inside the `repr` of nested strings is not modelled (no claim exercises it);
a string interpolates as its own text, which is the case the code relies on. -/
def pyStr : Json → String
  | .null => "None"
  | .bool true => "True"
  | .bool false => "False"
  | .num n => toString n
  | .str s => s
  | .arr _ => "[...]"
  | .obj _ => "\x7b...\x7d"

/-- The message of `str(e)` for a modelled exception (used by the
`except Exception as e: print(f"...: {e}")` handlers; no claim inspects the
exact text). -/
def errMsg : PyErr → String
  | .keyError k => "'" ++ k ++ "'"
  | .typeError => "type error"
  | .valueError => "value error"
  | .connectionRefused => "connection refused"
  | .transportClosed => "connection closed"
  | .jsonDecodeError => "invalid JSON"
  | .generic msg => msg

/-! ## UTF-8, SHA-256 and base64

`obs_live.py` builds the authentication token with `str.encode()` (UTF-8),
`hashlib.sha256(...).digest()` and `base64.b64encode(...).decode()`.  These
library functions are embedded concretely: bytes are `Nat`s below 256. -/

/-- UTF-8 encoding of one Unicode scalar value (Python `str.encode()` applied
character by character). -/
def utf8Char (c : Char) : List Nat :=
  let n := c.toNat
  if n < 0x80 then [n]
  else if n < 0x800 then [0xC0 + n / 64, 0x80 + n % 64]
  else if n < 0x10000 then [0xE0 + n / 4096, 0x80 + (n / 64) % 64, 0x80 + n % 64]
  else [0xF0 + n / 262144, 0x80 + (n / 4096) % 64, 0x80 + (n / 64) % 64, 0x80 + n % 64]

/-- Python `s.encode()`: the UTF-8 bytes of a string. -/
def utf8 (s : String) : List Nat :=
  (s.data.map utf8Char).flatten

/-- 32-bit right rotation. -/
def rotr32 (n x : Nat) : Nat :=
  ((x >>> n) ||| (x <<< (32 - n))) % 2 ^ 32

/-- SHA-256 initial hash values (FIPS 180-4 §5.3.3), in decimal. -/
def sha256H0 : List Nat :=
  [1779033703, 3144134277, 1013904242, 2773480762,
   1359893119, 2600822924, 528734635, 1541459225]

/-- SHA-256 round constants (FIPS 180-4 §4.2.2), in decimal. -/
def sha256K : List Nat :=
  [1116352408, 1899447441, 3049323471, 3921009573, 961987163, 1508970993,
   2453635748, 2870763221, 3624381080, 310598401, 607225278, 1426881987,
   1925078388, 2162078206, 2614888103, 3248222580, 3835390401, 4022224774,
   264347078, 604807628, 770255983, 1249150122, 1555081692, 1996064986,
   2554220882, 2821834349, 2952996808, 3210313671, 3336571891, 3584528711,
   113926993, 338241895, 666307205, 773529912, 1294757372, 1396182291,
   1695183700, 1986661051, 2177026350, 2456956037, 2730485921, 2820302411,
   3259730800, 3345764771, 3516065817, 3600352804, 4094571909, 275423344,
   430227734, 506948616, 659060556, 883997877, 958139571, 1322822218,
   1537002063, 1747873779, 1955562222, 2024104815, 2227730452, 2361852424,
   2428436474, 2756734187, 3204031479, 3329325298]

/-- Big-endian byte representation of a value in `n` bytes. -/
def beBytes (n v : Nat) : List Nat :=
  (List.range n).map fun i => (v >>> (8 * (n - 1 - i))) % 256

/-- SHA-256 message padding: append `0x80`, zero bytes up to 56 mod 64, then
the bit length in 8 big-endian bytes. -/
def sha256Pad (msg : List Nat) : List Nat :=
  let padZeros := (119 - msg.length % 64) % 64
  msg ++ [0x80] ++ List.replicate padZeros 0 ++ beBytes 8 (msg.length * 8)

/-- The 16 initial 32-bit message-schedule words of a 64-byte chunk
(big-endian). -/
def chunkWords (c : List Nat) : List Nat :=
  (List.range 16).map fun i =>
    c.getD (4 * i) 0 * 2 ^ 24 + c.getD (4 * i + 1) 0 * 2 ^ 16 +
    c.getD (4 * i + 2) 0 * 2 ^ 8 + c.getD (4 * i + 3) 0

/-- Append the next message-schedule word (FIPS 180-4 §6.2.2 step 1). -/
def sha256ExtendStep (w : List Nat) : List Nat :=
  let i := w.length
  let w15 := w.getD (i - 15) 0
  let w2 := w.getD (i - 2) 0
  let s0 := rotr32 7 w15 ^^^ rotr32 18 w15 ^^^ (w15 >>> 3)
  let s1 := rotr32 17 w2 ^^^ rotr32 19 w2 ^^^ (w2 >>> 10)
  w ++ [(w.getD (i - 16) 0 + s0 + w.getD (i - 7) 0 + s1) % 2 ^ 32]

/-- The full 64-word message schedule of one chunk. -/
def sha256Schedule (c : List Nat) : List Nat :=
  (List.range 48).foldl (fun w _ => sha256ExtendStep w) (chunkWords c)

/-- One SHA-256 compression round on the working variables `[a,…,h]`;
`kw` is `k[i] + w[i]`. -/
def sha256Round (st : List Nat) (kw : Nat) : List Nat :=
  let a := st.getD 0 0
  let b := st.getD 1 0
  let c := st.getD 2 0
  let d := st.getD 3 0
  let e := st.getD 4 0
  let f := st.getD 5 0
  let g := st.getD 6 0
  let h := st.getD 7 0
  let s1 := rotr32 6 e ^^^ rotr32 11 e ^^^ rotr32 25 e
  let ch := (e &&& f) ^^^ ((e ^^^ 0xffffffff) &&& g)
  let temp1 := (h + s1 + ch + kw) % 2 ^ 32
  let s0 := rotr32 2 a ^^^ rotr32 13 a ^^^ rotr32 22 a
  let maj := (a &&& b) ^^^ (a &&& c) ^^^ (b &&& c)
  let temp2 := (s0 + maj) % 2 ^ 32
  [(temp1 + temp2) % 2 ^ 32, a, b, c, (d + temp1) % 2 ^ 32, e, f, g]

/-- Process one 64-byte chunk into the running hash values. -/
def sha256Compress (hs : List Nat) (c : List Nat) : List Nat :=
  let w := sha256Schedule c
  let st := (sha256K.zip w).foldl (fun st kw => sha256Round st (kw.1 + kw.2)) hs
  List.zipWith (fun x y => (x + y) % 2 ^ 32) hs st

/-- Split a byte list into 64-byte chunks. -/
def chunks64 (l : List Nat) : List (List Nat) :=
  if h : l = [] then []
  else l.take 64 :: chunks64 (l.drop 64)
termination_by l.length
decreasing_by
  simp only [List.length_drop]
  exact Nat.sub_lt (List.length_pos.mpr h) (by norm_num)

/-- Python `hashlib.sha256(msg).digest()`: the 32-byte SHA-256 digest. -/
def sha256 (msg : List Nat) : List Nat :=
  ((chunks64 (sha256Pad msg)).foldl sha256Compress sha256H0).flatMap (beBytes 4)

/-- The standard base64 alphabet. -/
def b64CharAt (n : Nat) : Char :=
  "ABCDEFGHIJKLMNOPQRSTUVWXYZabcdefghijklmnopqrstuvwxyz0123456789+/".toList.getD n 'A'

/-- Base64 of a byte list as characters, with `=` padding. -/
def b64Chars : List Nat → List Char
  | [] => []
  | [a] => [b64CharAt (a >>> 2), b64CharAt ((a % 4) * 16), '=', '=']
  | [a, b] =>
    [b64CharAt (a >>> 2), b64CharAt ((a % 4) * 16 + (b >>> 4)),
     b64CharAt ((b % 16) * 4), '=']
  | a :: b :: c :: rest =>
    b64CharAt (a >>> 2) :: b64CharAt ((a % 4) * 16 + (b >>> 4)) ::
    b64CharAt ((b % 16) * 4 + (c >>> 6)) :: b64CharAt (c % 64) :: b64Chars rest

/-- Python `base64.b64encode(bs).decode()`: standard base64 of a byte list, as a
string. -/
def b64encode (bs : List Nat) : String :=
  String.mk (b64Chars bs)

/-! ## The transport script and effect records -/

/-- One incoming event per `await self.websocket.recv()` together with the
`json.loads` applied to its result: either a parsed JSON message or a raised
exception (transport failure or undecodable text). -/
abbrev Incoming := List (Except PyErr Json)

/-- One `recv()` + `json.loads` step: consume the next scripted event.  Receiving on an
exhausted script is a transport failure (the closed connection raises). -/
def recv : Incoming → Except PyErr (Json × Incoming)
  | [] => .error .transportClosed
  | .ok j :: rest => .ok (j, rest)
  | .error e :: _ => .error e

/-- The outcome of running an embedded method: its return value (or the
exception it raises), the envelopes it sent, the lines it printed, and the
unconsumed remainder of the incoming script. -/
structure Run (α : Type) where
  ret : Except PyErr α
  sent : List Json
  printed : List String
  rest : Incoming

/-! ## `OBSController._send_identify` (obs_live.py lines 57–90) -/

/-- The authentication token exactly as `_send_identify` computes it:
`secret = base64.b64encode(hashlib.sha256((password + salt).encode()).digest()).decode()`
then
`base64.b64encode(hashlib.sha256((secret + challenge).encode()).digest()).decode()`. -/
def authTokenCode (password salt challenge : String) : String :=
  let secret := b64encode (sha256 (utf8 (password ++ salt)))
  b64encode (sha256 (utf8 (secret ++ challenge)))

/-- The Identify envelope without authentication, as built at the top of
`_send_identify`. -/
def identifyBase : Json :=
  .obj [("op", .num 1), ("d", .obj [("rpcVersion", .num 1)])]

/-- The Identify envelope after `identify_message["d"]["authentication"] =
auth_response`. -/
def identifyWithAuth (token : String) : Json :=
  .obj [("op", .num 1),
        ("d", .obj [("rpcVersion", .num 1), ("authentication", .str token)])]

/-- The method `OBSController._send_identify(hello_data)`.  Mirrors the source line by
line: look up `hello_data["d"]`, test `"authentication" in` it, extract
`challenge` and `salt`, then — only if `self.password` is truthy — derive the
token; with a challenge but no (or empty) password it prints the error line
and raises before anything is sent.  The `(password + salt)` and
`(secret + challenge)` concatenations raise `TypeError` when the value taken
from the message is not a string (checked in evaluation order: salt first).
Returns (result, envelopes sent, lines printed). -/
def sendIdentify (password : Option String) (helloData : Json) :
    Except PyErr Unit × List Json × List String :=
  match helloData.get "d" with
  | .error e => (.error e, [], [])
  | .ok d =>
    match d.hasKey "authentication" with
    | .error e => (.error e, [], [])
    | .ok false => (.ok (), [identifyBase], ["ℹ️ No authentication required"])
    | .ok true =>
      match d.get "authentication" with
      | .error e => (.error e, [], [])
      | .ok authData =>
        match authData.get "challenge" with
        | .error e => (.error e, [], [])
        | .ok challengeJ =>
          match authData.get "salt" with
          | .error e => (.error e, [], [])
          | .ok saltJ =>
            match password with
            | some pw =>
              if pw = "" then
                (.error (.generic "Authentication required but no password provided"),
                 [], ["❌ Authentication required but no password provided"])
              else
                match saltJ with
                | .str salt =>
                  match challengeJ with
                  | .str challenge =>
                    (.ok (), [identifyWithAuth (authTokenCode pw salt challenge)],
                     ["🔐 Authentication included in Identify message"])
                  | _ => (.error .typeError, [], [])
                | _ => (.error .typeError, [], [])
            | none =>
              (.error (.generic "Authentication required but no password provided"),
               [], ["❌ Authentication required but no password provided"])

/-! ## `OBSController.connect` (obs_live.py lines 23–55) -/

/-- The body of `connect`'s `try:` block.  `conn` is the outcome of
`websockets.connect(uri)` itself. -/
def connectBody (host : String) (port : Int) (password : Option String)
    (conn : Except PyErr Unit) (incoming : Incoming) : Run Bool :=
  match conn with
  | .error e => ⟨.error e, [], [], incoming⟩
  | .ok _ =>
    let p0 := "Connected to OBS at ws://" ++ host ++ ":" ++ toString port
    match recv incoming with
    | .error e => ⟨.error e, [], [p0], incoming⟩
    | .ok (helloData, r1) =>
      match sendIdentify password helloData with
      | (.error e, s, pr) => ⟨.error e, s, [p0, "Received Hello message"] ++ pr, r1⟩
      | (.ok _, s, pr) =>
        match recv r1 with
        | .error e => ⟨.error e, s, [p0, "Received Hello message"] ++ pr, r1⟩
        | .ok (identifiedData, r2) =>
          match identifiedData.get "op" with
          | .error e => ⟨.error e, s, [p0, "Received Hello message"] ++ pr, r2⟩
          | .ok opJ =>
            match opJ with
            | .num 2 =>
              ⟨.ok true, s, [p0, "Received Hello message"] ++ pr ++
                ["✅ Successfully identified with OBS"], r2⟩
            | _ =>
              ⟨.ok false, s, [p0, "Received Hello message"] ++ pr ++
                ["❌ Failed to identify: " ++ pyStr identifiedData], r2⟩

/-- The result of `connect()`: its boolean return value, whether
`self.websocket` was set (the transport opened), and the run's effects. -/
structure ConnectRun where
  ret : Bool
  wsOpen : Bool
  sent : List Json
  printed : List String
  rest : Incoming

/-- The method `OBSController.connect()`: the `try:` body wrapped in
`except ConnectionRefusedError` / `except Exception`, both of which print and
return `False`.  `self.websocket` is set exactly when `websockets.connect`
itself succeeded. -/
def connect (host : String) (port : Int) (password : Option String)
    (conn : Except PyErr Unit) (incoming : Incoming) : ConnectRun :=
  let b := connectBody host port password conn incoming
  let wsOpen := match conn with | .ok _ => true | .error _ => false
  match b.ret with
  | .ok v => ⟨v, wsOpen, b.sent, b.printed, b.rest⟩
  | .error .connectionRefused =>
    ⟨false, wsOpen, b.sent,
     b.printed ++ ["Error: Could not connect to OBS WebSocket server",
                   "Make sure OBS is running and WebSocket server is enabled"],
     b.rest⟩
  | .error e =>
    ⟨false, wsOpen, b.sent, b.printed ++ ["Connection error: " ++ errMsg e], b.rest⟩

/-! ## The three commands (obs_live.py lines 92–153)

Each builds a fixed request envelope, sends it, receives exactly one message
and branches on `result["d"]["requestStatus"]["result"]`.  None of them
inspects the reply's `requestId`.  The chained subscripts are `Json.getPath`;
an exception from a lookup propagates out of the method uncaught. -/

/-- The `StartStream` request envelope (obs_live.py lines 94–100). -/
def startStreamRequest : Json :=
  .obj [("op", .num 6),
        ("d", .obj [("requestType", .str "StartStream"),
                    ("requestId", .str "start-stream")])]

/-- The `StopStream` request envelope (obs_live.py lines 113–119). -/
def stopStreamRequest : Json :=
  .obj [("op", .num 6),
        ("d", .obj [("requestType", .str "StopStream"),
                    ("requestId", .str "stop-stream")])]

/-- The `GetStreamStatus` request envelope (obs_live.py lines 132–138). -/
def getStreamStatusRequest : Json :=
  .obj [("op", .num 6),
        ("d", .obj [("requestType", .str "GetStreamStatus"),
                    ("requestId", .str "get-stream-status")])]

/-- The method `OBSController.start_streaming()`: send the request, receive one reply,
print success when `result["d"]["requestStatus"]["result"]` is truthy and
otherwise print the failure line with `...["comment"]`; the return value is
`None` on both branches. -/
def startStreaming (incoming : Incoming) : Run Unit :=
  match recv incoming with
  | .error e => ⟨.error e, [startStreamRequest], [], incoming⟩
  | .ok (result, r1) =>
    match result.getPath ["d", "requestStatus", "result"] with
    | .error e => ⟨.error e, [startStreamRequest], [], r1⟩
    | .ok v =>
      if v.truthy then
        ⟨.ok (), [startStreamRequest], ["✅ Streaming started successfully!"], r1⟩
      else
        match result.getPath ["d", "requestStatus", "comment"] with
        | .error e => ⟨.error e, [startStreamRequest], [], r1⟩
        | .ok c =>
          ⟨.ok (), [startStreamRequest],
           ["❌ Failed to start streaming: " ++ pyStr c], r1⟩

/-- The method `OBSController.stop_streaming()`: identical shape to `start_streaming`
with the stop envelope and messages. -/
def stopStreaming (incoming : Incoming) : Run Unit :=
  match recv incoming with
  | .error e => ⟨.error e, [stopStreamRequest], [], incoming⟩
  | .ok (result, r1) =>
    match result.getPath ["d", "requestStatus", "result"] with
    | .error e => ⟨.error e, [stopStreamRequest], [], r1⟩
    | .ok v =>
      if v.truthy then
        ⟨.ok (), [stopStreamRequest], ["✅ Streaming stopped successfully!"], r1⟩
      else
        match result.getPath ["d", "requestStatus", "comment"] with
        | .error e => ⟨.error e, [stopStreamRequest], [], r1⟩
        | .ok c =>
          ⟨.ok (), [stopStreamRequest],
           ["❌ Failed to stop streaming: " ++ pyStr c], r1⟩

/-- The method `OBSController.get_stream_status()`: on a truthy `result` it reads
`result["d"]["responseData"]` and branches on `status["outputActive"]`,
printing the duration and byte counters (each a further lookup that can
raise); on a falsy `result` it prints the failure line with the comment. -/
def getStreamStatus (incoming : Incoming) : Run Unit :=
  match recv incoming with
  | .error e => ⟨.error e, [getStreamStatusRequest], [], incoming⟩
  | .ok (result, r1) =>
    match result.getPath ["d", "requestStatus", "result"] with
    | .error e => ⟨.error e, [getStreamStatusRequest], [], r1⟩
    | .ok v =>
      if v.truthy then
        match result.getPath ["d", "responseData"] with
        | .error e => ⟨.error e, [getStreamStatusRequest], [], r1⟩
        | .ok status =>
          match status.get "outputActive" with
          | .error e => ⟨.error e, [getStreamStatusRequest], [], r1⟩
          | .ok active =>
            if active.truthy then
              match status.get "outputDuration" with
              | .error e =>
                ⟨.error e, [getStreamStatusRequest], ["🔴 Currently streaming"], r1⟩
              | .ok dur =>
                match status.get "outputBytes" with
                | .error e =>
                  ⟨.error e, [getStreamStatusRequest],
                   ["🔴 Currently streaming", "   Duration: " ++ pyStr dur ++ "ms"], r1⟩
                | .ok bytes =>
                  ⟨.ok (), [getStreamStatusRequest],
                   ["🔴 Currently streaming", "   Duration: " ++ pyStr dur ++ "ms",
                    "   Bytes sent: " ++ pyStr bytes], r1⟩
            else
              ⟨.ok (), [getStreamStatusRequest], ["⚫ Not currently streaming"], r1⟩
      else
        match result.getPath ["d", "requestStatus", "comment"] with
        | .error e => ⟨.error e, [getStreamStatusRequest], [], r1⟩
        | .ok c =>
          ⟨.ok (), [getStreamStatusRequest],
           ["❌ Failed to get stream status: " ++ pyStr c], r1⟩

/-! ## `OBSController.schedule_stream` (obs_live.py lines 155–190)

Wall-clock time is modelled as a `Nat` of seconds since an arbitrary epoch;
`datetime.now()` is a single such instant (the code re-reads the clock a few
instructions apart; the model uses one reading).  `%H` accepts one or two
digits in 0–23, `%M` one or two digits in 0–59, and any unconsumed text makes
`datetime.strptime` raise `ValueError`. -/

/-- An ASCII decimal digit's value. -/
def charDigit? (c : Char) : Option Nat :=
  if '0' ≤ c ∧ c ≤ '9' then some (c.toNat - 48) else none

/-- The value of a non-empty all-digit character run (`none` otherwise). -/
def digitsToNat? (cs : List Char) : Option Nat :=
  match cs with
  | [] => none
  | _ => go cs 0
where
  go : List Char → Nat → Option Nat
    | [], acc => some acc
    | c :: t, acc =>
      match charDigit? c with
      | some d => go t (acc * 10 + d)
      | none => none

/-- Split a character list into fields at every `':'` (the field structure
`strptime` sees for the pattern `"%H:%M"`). -/
def splitColon : List Char → List (List Char)
  | [] => [[]]
  | c :: rest =>
    if c = ':' then [] :: splitColon rest
    else
      match splitColon rest with
      | f :: fs => (c :: f) :: fs
      | [] => [[c]]

/-- One or two ASCII digits whose value is at most `bound`, as
`datetime.strptime` accepts for `%H` (bound 23) and `%M` (bound 59). -/
def parseField (bound : Nat) (cs : List Char) : Option Nat :=
  if cs.length = 0 ∨ 2 < cs.length then none
  else match digitsToNat? cs with
    | some v => if v ≤ bound then some v else none
    | none => none

/-- Python `datetime.strptime(start_time, "%H:%M")`, reduced to the (hour, minute)
pair: `none` is the `ValueError` branch. -/
def parseHHMM (s : String) : Option (Nat × Nat) :=
  match splitColon s.data with
  | [hs, ms] =>
    match parseField 23 hs, parseField 59 ms with
    | some h, some m => some (h, m)
    | _, _ => none
  | _ => none

/-- The absolute target instant `schedule_stream` computes: today's date with
the parsed time of day (seconds zeroed, as `%H:%M` parsing leaves them), bumped
by one day when `target_time <= datetime.now()`. -/
def scheduleTarget (now h m : Nat) : Nat :=
  let target0 := now / 86400 * 86400 + h * 3600 + m * 60
  if target0 ≤ now then target0 + 86400 else target0

/-- Truthiness of `duration_minutes` in `if duration_minutes:`; — `None` and `0` are falsy. -/
def durTruthy : Option Int → Bool
  | none => false
  | some d => d != 0

/-- The method `OBSController.schedule_stream(start_time, duration_minutes)`.  The
`except ValueError` branch is the `parseHHMM = none` case; the trailing
`except Exception` turns any exception from the streaming calls into a printed
line and a normal return.  The two `asyncio.sleep` calls have no effect in the
model beyond ordering.  Scheduling prints interpolate computed values; the
exact `strftime` rendering is abstracted to the target's numeric value. -/
def scheduleStream (startTime : String) (durationMinutes : Option Int)
    (now : Nat) (incoming : Incoming) : Run Unit :=
  match parseHHMM startTime with
  | none =>
    ⟨.ok (), [], ["❌ Invalid time format. Use HH:MM (24-hour format)"], incoming⟩
  | some (h, m) =>
    let target := scheduleTarget now h m
    let waitSeconds := target - now
    let p0 := ["⏰ Stream scheduled for instant " ++ toString target,
               "⏳ Waiting " ++ toString waitSeconds ++ " seconds...",
               "🚀 Starting scheduled stream..."]
    let s1 := startStreaming incoming
    match s1.ret with
    | .error e =>
      ⟨.ok (), s1.sent, p0 ++ s1.printed ++ ["❌ Scheduling error: " ++ errMsg e],
       s1.rest⟩
    | .ok _ =>
      if durTruthy durationMinutes then
        let d := durationMinutes.getD 0
        let p1 := ["⏰ Stream will stop automatically in " ++ toString d ++ " minutes",
                   "⏹️ Stopping scheduled stream..."]
        let s2 := stopStreaming s1.rest
        match s2.ret with
        | .error e =>
          ⟨.ok (), s1.sent ++ s2.sent,
           p0 ++ s1.printed ++ p1 ++ s2.printed ++ ["❌ Scheduling error: " ++ errMsg e],
           s2.rest⟩
        | .ok _ =>
          ⟨.ok (), s1.sent ++ s2.sent, p0 ++ s1.printed ++ p1 ++ s2.printed, s2.rest⟩
      else
        ⟨.ok (), s1.sent, p0 ++ s1.printed, s1.rest⟩

/-! ## `OBSController.disconnect` (obs_live.py lines 192–196) -/

/-- The transport handle held in `self.websocket`: only whether it has been
closed is observable here. -/
structure Ws where
  closed : Bool

/-- Python `await self.websocket.close()`: closing is idempotent on the handle. -/
def wsClose (_ : Ws) : Ws :=
  ⟨true⟩

/-- The method `OBSController.disconnect()`: `if self.websocket:` close it and print;
with no websocket (never connected) it does nothing.  The handle is not reset
to `None`, exactly as in the source.  Returns the new `self.websocket` and the
lines printed. -/
def disconnect (ws : Option Ws) : Option Ws × List String :=
  match ws with
  | none => (none, [])
  | some w => (some (wsClose w), ["Disconnected from OBS"])

/-! ## `obs-auto.py`'s `start_stream` (lines 14–20) -/

/-- The observable outcome of one `start_stream()` trigger invocation. -/
structure AutoRun where
  ret : Except PyErr Unit
  ws : Option Ws
  disconnected : Bool
  sent : List Json
  printed : List String

/-- The function `start_stream()` from `obs-auto.py`: build a fresh controller, `connect()`;
if it returned `True`, `start_streaming()` inside `try:` with
`finally: disconnect()`, so the disconnect runs whether `start_streaming`
returns or raises, and a raised exception propagates after it.  If `connect()`
returned `False` nothing further happens (no command, no disconnect). -/
def startStreamAuto (conn : Except PyErr Unit) (incoming : Incoming) : AutoRun :=
  let c := connect "localhost" 4455 (some "Oindia001") conn incoming
  let ws : Option Ws := if c.wsOpen then some ⟨false⟩ else none
  if c.ret then
    let s := startStreaming c.rest
    let d := disconnect ws
    match s.ret with
    | .ok _ =>
      ⟨.ok (), d.1, true, c.sent ++ s.sent, c.printed ++ s.printed ++ d.2⟩
    | .error e =>
      ⟨.error e, d.1, true, c.sent ++ s.sent, c.printed ++ s.printed ++ d.2⟩
  else
    ⟨.ok (), ws, false, c.sent, c.printed⟩

/-! ## Spec-side definitions and concrete envelopes used in the theorems -/

/-- The token formula as the spec words it: `base64( sha256(
base64(sha256(UTF8(secret + salt))) + UTF8(challenge) ) )`, with the
concatenations performed on the UTF-8 text of the operands (the base64 text
concatenated with the challenge text), not on raw digest bytes.  This is the
spec's formula, written independently of `authTokenCode`, to be compared with
it. -/
def specAuthToken (secret salt challenge : String) : String :=
  b64encode (sha256 (utf8 (b64encode (sha256 (utf8 secret ++ utf8 salt))) ++
    utf8 challenge))

/-- A Greeting carrying an authentication challenge. -/
def helloAuth (challenge salt : String) : Json :=
  .obj [("op", .num 0),
        ("d", .obj [("rpcVersion", .num 1),
                    ("authentication",
                     .obj [("challenge", .str challenge), ("salt", .str salt)])])]

/-- A Greeting with no authentication field. -/
def helloNoAuth : Json :=
  .obj [("op", .num 0), ("d", .obj [("rpcVersion", .num 1)])]

/-- A successful reply whose `requestId` does not match the sent
`"start-stream"`. -/
def mismatchReply : Json :=
  .obj [("op", .num 7),
        ("d", .obj [("requestType", .str "StartStream"),
                    ("requestId", .str "wrong-id"),
                    ("requestStatus", .obj [("result", .bool true)])])]

/-- A reply with a matching `requestId` whose `requestStatus.result` is
`false`, carrying a comment. -/
def failedReply : Json :=
  .obj [("op", .num 7),
        ("d", .obj [("requestType", .str "StartStream"),
                    ("requestId", .str "start-stream"),
                    ("requestStatus",
                     .obj [("result", .bool false),
                           ("comment", .str "Output is already active")])])]

/-- A reply with a matching `requestId` whose `requestStatus.result` is
`true`. -/
def okReply : Json :=
  .obj [("op", .num 7),
        ("d", .obj [("requestType", .str "StartStream"),
                    ("requestId", .str "start-stream"),
                    ("requestStatus", .obj [("result", .bool true)])])]

/-- An Identify Acknowledgement whose `op` is not 2. -/
def badAck : Json :=
  .obj [("op", .num 5), ("d", .obj [])]

/-- An Identify Acknowledgement with `op = 2`. -/
def goodAck : Json :=
  .obj [("op", .num 2), ("d", .obj [])]

end OBS

namespace OBS

/-! # Helper lemmas -/

/-- UTF-8 encoding distributes over string concatenation: encoding the
concatenated text equals concatenating the encodings. -/
theorem utf8_append (a b : String) : utf8 (a ++ b) = utf8 a ++ utf8 b := by
  simp [utf8, String.data_append]

/-- The token `_send_identify` computes equals the spec's formula: hashing the
concatenated strings is hashing the concatenated UTF-8 encodings. -/
theorem authTokenCode_eq_spec (pw salt ch : String) :
    authTokenCode pw salt ch = specAuthToken pw salt ch := by
  simp [authTokenCode, specAuthToken, utf8_append]

/-- A parsed `%H`/`%M` field is within its bound. -/
theorem parseField_le {b : Nat} {s : List Char} {v : Nat}
    (h : parseField b s = some v) : v ≤ b := by
  unfold parseField at h
  split at h
  · simp at h
  · split at h
    · split at h
      · injection h with h'
        omega
      · simp at h
    · simp at h

/-- A parse of `"%H:%M"` yields an hour below 24 and a minute below 60. -/
theorem parseHHMM_bounds {s : String} {h m : Nat}
    (hp : parseHHMM s = some (h, m)) : h ≤ 23 ∧ m ≤ 59 := by
  unfold parseHHMM at hp
  split at hp
  · split at hp
    · rename_i hh hm'
      injection hp with hp'
      cases hp'
      exact ⟨parseField_le hh, parseField_le hm'⟩
    · simp at hp
  · simp at hp

/-! # Claim theorems -/

/-- C1: for every secret, salt and challenge string (the secret non-empty, as
an empty configured password takes the no-password branch), the authentication
token `_send_identify` places in the Identify message equals the spec's
formula `base64(sha256(base64(sha256(UTF8(secret + salt))) + UTF8(challenge)))`,
with both concatenations performed on the UTF-8 text, not on raw digest
bytes. -/
theorem identify_token_matches_spec (pw salt ch : String) (hpw : pw ≠ "") :
    sendIdentify (some pw) (helloAuth ch salt) =
      (.ok (), [identifyWithAuth (specAuthToken pw salt ch)],
       ["🔐 Authentication included in Identify message"]) := by
  simp [sendIdentify, helloAuth, Json.get, Json.hasKey, List.lookup, hpw,
    authTokenCode_eq_spec]

/-- C1 witness: the spec's own end-to-end vector (secret `"pw"`, salt `"s1"`,
challenge `"c1"`). -/
theorem identify_token_matches_spec_witness :
    sendIdentify (some "pw") (helloAuth "c1" "s1") =
      (.ok (), [identifyWithAuth (specAuthToken "pw" "s1" "c1")],
       ["🔐 Authentication included in Identify message"]) :=
  identify_token_matches_spec "pw" "s1" "c1" (by decide)

/-- C4: against a Greeting carrying an authentication challenge, with no
configured password, `connect()` returns `false` and sends nothing — the
Identify message is never sent; the auth-required error is raised inside
`_send_identify` (printed, then swallowed by `connect`'s `except` into the
`False` return). -/
theorem connect_auth_required_sends_nothing (host : String) (port : Int)
    (ch salt : String) (rest : Incoming) :
    connect host port none (.ok ()) (.ok (helloAuth ch salt) :: rest) =
      ⟨false, true, [],
       ["Connected to OBS at ws://" ++ host ++ ":" ++ toString port,
        "Received Hello message",
        "❌ Authentication required but no password provided",
        "Connection error: Authentication required but no password provided"],
       rest⟩ := by
  simp [connect, connectBody, recv, sendIdentify, helloAuth, Json.get,
    Json.hasKey, List.lookup, errMsg]

/-- C5: for a parseable `HH:MM` string, the computed target instant is on the
following day when that time of day is not later than the current clock time,
and later the same day when it is still ahead; it is never in the past. -/
theorem schedule_target_never_past (s : String) (h m now : Nat)
    (hp : parseHHMM s = some (h, m)) :
    (h * 3600 + m * 60 ≤ now % 86400 →
       scheduleTarget now h m / 86400 = now / 86400 + 1) ∧
    (now % 86400 < h * 3600 + m * 60 →
       scheduleTarget now h m / 86400 = now / 86400 ∧
       now < scheduleTarget now h m) ∧
    now < scheduleTarget now h m := by
  obtain ⟨hh, hm⟩ := parseHHMM_bounds hp
  have he : scheduleTarget now h m =
      if now / 86400 * 86400 + h * 3600 + m * 60 ≤ now then
        now / 86400 * 86400 + h * 3600 + m * 60 + 86400
      else now / 86400 * 86400 + h * 3600 + m * 60 := rfl
  rw [he]
  split <;> omega

/-- C5 witness: `"08:30"` at a simulated clock of 09:00 on day 0
(`now = 32400` s) targets the following day; at 07:00 (`now = 25200` s) it
targets later the same day. -/
theorem schedule_target_never_past_witness :
    scheduleTarget 32400 8 30 / 86400 = 32400 / 86400 + 1 ∧
    (scheduleTarget 25200 8 30 / 86400 = 25200 / 86400 ∧
     25200 < scheduleTarget 25200 8 30) :=
  ⟨(schedule_target_never_past "08:30" 8 30 32400 (by decide)).1 (by decide),
   (schedule_target_never_past "08:30" 8 30 25200 (by decide)).2.1 (by decide)⟩

/-- C6: for a time string that does not parse as `HH:MM`, `schedule_stream`
takes the `ValueError` branch: it prints the invalid-format line, sends no
message over the transport and issues no start/stop command. -/
theorem schedule_invalid_no_action (s : String) (dur : Option Int) (now : Nat)
    (incoming : Incoming) (hp : parseHHMM s = none) :
    scheduleStream s dur now incoming =
      ⟨.ok (), [], ["❌ Invalid time format. Use HH:MM (24-hour format)"],
       incoming⟩ := by
  unfold scheduleStream
  rw [hp]

/-- C6 witness: the spec's example `"25:99"`. -/
theorem schedule_invalid_no_action_witness :
    scheduleStream "25:99" none 0 [] =
      ⟨.ok (), [], ["❌ Invalid time format. Use HH:MM (24-hour format)"], []⟩ :=
  schedule_invalid_no_action "25:99" none 0 [] (by decide)

/-- C8: `disconnect()` is valid in every session state and idempotent: from
every websocket state (including the never-connected `none`), disconnecting
twice leaves the same state as disconnecting once, and on a session that never
connected it does nothing (no close call, no output). -/
theorem disconnect_idempotent :
    (∀ ws : Option Ws, (disconnect (disconnect ws).1).1 = (disconnect ws).1) ∧
    disconnect none = (none, []) := by
  refine ⟨fun ws => ?_, rfl⟩
  cases ws <;> rfl

/-- A three-step subscript chain factors through its first two steps. -/
theorem getPath_three (j : Json) (a b c : String) :
    j.getPath [a, b, c] = (j.getPath [a, b]).bind (fun v => v.get c) := by
  simp only [Json.getPath]
  rcases h1 : j.get a with e | v <;> simp only [h1, Except.bind]
  rcases h2 : v.get b with e | w <;> simp only [h2, Except.bind]
  rcases h3 : w.get c with e | x <;> simp only [h3]

/-- C2 counterexample: a successful `StartStream` reply whose `requestId` is
`"wrong-id"`, not the sent `"start-stream"`.  `start_streaming` does not fail
in any way: it returns normally and prints the success line. -/
theorem request_id_mismatch_counterexample :
    mismatchReply.getPath ["d", "requestId"] = .ok (.str "wrong-id") ∧
    (startStreaming [.ok mismatchReply]).ret = .ok () ∧
    (startStreaming [.ok mismatchReply]).printed =
      ["✅ Streaming started successfully!"] :=
  ⟨rfl, rfl, rfl⟩

/-- C2 amended: the correlator layer never validates the reply's `requestId`.
Each of the three commands processes the reply solely through
`d.requestStatus` (and, for the status query, `d.responseData`): two replies
agreeing there — whatever their `requestId`s — produce identical outcomes, and
no `requestId` mismatch is ever detected or reported. -/
theorem request_id_ignored (j₁ j₂ : Json) (rest : Incoming)
    (hrs : j₁.getPath ["d", "requestStatus"] = j₂.getPath ["d", "requestStatus"])
    (hrd : j₁.getPath ["d", "responseData"] = j₂.getPath ["d", "responseData"]) :
    startStreaming (.ok j₁ :: rest) = startStreaming (.ok j₂ :: rest) ∧
    stopStreaming (.ok j₁ :: rest) = stopStreaming (.ok j₂ :: rest) ∧
    getStreamStatus (.ok j₁ :: rest) = getStreamStatus (.ok j₂ :: rest) := by
  refine ⟨?_, ?_, ?_⟩ <;>
    simp only [startStreaming, stopStreaming, getStreamStatus, recv,
      getPath_three, hrs, hrd]

/-- C2 witness: two concrete successful replies differing only in
`requestId` (`"start-stream"` vs `"wrong-id"`) are handled identically. -/
theorem request_id_ignored_witness :
    startStreaming [.ok okReply] = startStreaming [.ok mismatchReply] ∧
    stopStreaming [.ok okReply] = stopStreaming [.ok mismatchReply] ∧
    getStreamStatus [.ok okReply] = getStreamStatus [.ok mismatchReply] :=
  request_id_ignored okReply mismatchReply [] rfl rfl

/-- C3 counterexample: on a reply with `requestStatus.result = false` and a
comment, `start_streaming` returns exactly the value it returns on success
(`None`, here `.ok ()`): the failure is only printed, never surfaced as a
typed result, so no caller can distinguish the two outcomes from the return
value. -/
theorem request_failed_only_printed_counterexample :
    (startStreaming [.ok failedReply]).ret = .ok () ∧
    (startStreaming [.ok failedReply]).ret = (startStreaming [.ok okReply]).ret ∧
    (startStreaming [.ok failedReply]).printed =
      ["❌ Failed to start streaming: Output is already active"] :=
  ⟨rfl, rfl, rfl⟩

/-- C3 amended: on every reply whose `requestStatus.result` is falsy and
whose `comment` is a string `c`, `start_streaming`/`stop_streaming` print a
failure line carrying exactly `c` and return `None` — the same value as on
success; the failure is reported only as a printed message, not as a typed
result. -/
theorem request_failed_prints_comment (j v : Json) (c : String) (rest : Incoming)
    (hres : j.getPath ["d", "requestStatus", "result"] = .ok v)
    (hv : v.truthy = false)
    (hc : j.getPath ["d", "requestStatus", "comment"] = .ok (.str c)) :
    startStreaming (.ok j :: rest) =
      ⟨.ok (), [startStreamRequest],
       ["❌ Failed to start streaming: " ++ c], rest⟩ ∧
    stopStreaming (.ok j :: rest) =
      ⟨.ok (), [stopStreamRequest],
       ["❌ Failed to stop streaming: " ++ c], rest⟩ := by
  constructor <;>
    simp only [startStreaming, stopStreaming, recv, hres, hv, hc, pyStr,
      Bool.false_eq_true, if_false]

/-- C3 witness: the concrete failing reply with comment
`"Output is already active"`. -/
theorem request_failed_prints_comment_witness :
    startStreaming [.ok failedReply] =
      ⟨.ok (), [startStreamRequest],
       ["❌ Failed to start streaming: Output is already active"], []⟩ ∧
    stopStreaming [.ok failedReply] =
      ⟨.ok (), [stopStreamRequest],
       ["❌ Failed to stop streaming: Output is already active"], []⟩ :=
  request_failed_prints_comment failedReply (.bool false)
    "Output is already active" [] rfl rfl rfl

/-- Every envelope `_send_identify` sends is an Identify message (`op = 1`). -/
theorem sendIdentify_sent_op1 (p : Option String) (h : Json) (j : Json)
    (hj : j ∈ (sendIdentify p h).2.1) : j.get "op" = .ok (.num 1) := by
  unfold sendIdentify at hj
  repeat' split at hj
  all_goals simp_all [identifyBase, identifyWithAuth, Json.get]

/-- Every envelope the `connect` handshake sends is an Identify message
(`op = 1`); in particular it never sends a command request. -/
theorem connect_sent_op1 (host : String) (port : Int) (p : Option String)
    (conn : Except PyErr Unit) (incoming : Incoming) (j : Json)
    (hj : j ∈ (connect host port p conn incoming).sent) :
    j.get "op" = .ok (.num 1) := by
  have hcb : (connect host port p conn incoming).sent =
      (connectBody host port p conn incoming).sent := by
    simp only [connect]
    rcases hbr : (connectBody host port p conn incoming).ret with e | v
    · rcases e <;> simp [hbr]
    · simp [hbr]
  rw [hcb] at hj
  unfold connectBody at hj
  rcases conn with e | u
  · simp at hj
  · rcases h1 : recv incoming with e | ⟨hello, r1⟩ <;> simp only [h1] at hj
    · simp at hj
    · rcases hsi : sendIdentify p hello with ⟨ri, si, pi⟩
      simp only [hsi] at hj
      rcases ri with e | u2
      · exact sendIdentify_sent_op1 p hello j (by rw [hsi]; exact hj)
      · rcases h2 : recv r1 with e | ⟨ack, r2⟩ <;> simp only [h2] at hj
        · exact sendIdentify_sent_op1 p hello j (by rw [hsi]; exact hj)
        · rcases h3 : ack.get "op" with e | opJ <;> simp only [h3] at hj
          · exact sendIdentify_sent_op1 p hello j (by rw [hsi]; exact hj)
          · split at hj <;>
              exact sendIdentify_sent_op1 p hello j (by rw [hsi]; exact hj)

/-- The method `start_streaming` always sends exactly the fixed `StartStream` request. -/
theorem startStreaming_sent (incoming : Incoming) :
    (startStreaming incoming).sent = [startStreamRequest] := by
  unfold startStreaming
  repeat' split
  all_goals rfl

/-- C9: the trigger entry point `start_stream` of `obs-auto.py` issues the
start command only when `connect()` reported the session ready, and whenever
`connect()` succeeded the `finally:` block disconnects on every exit path —
also when `start_streaming` raises, in which case the exception propagates
after the disconnect.  When `connect()` returned `false`, no command is sent
at all (the handshake sends only Identify envelopes, never a request). -/
theorem trigger_scoped_session (conn : Except PyErr Unit) (incoming : Incoming) :
    ((connect "localhost" 4455 (some "Oindia001") conn incoming).ret = true →
       (startStreamAuto conn incoming).disconnected = true ∧
       startStreamRequest ∈ (startStreamAuto conn incoming).sent ∧
       ∀ e, (startStreaming
              (connect "localhost" 4455 (some "Oindia001") conn incoming).rest).ret
            = .error e →
         (startStreamAuto conn incoming).ret = .error e) ∧
    ((connect "localhost" 4455 (some "Oindia001") conn incoming).ret = false →
       (startStreamAuto conn incoming).disconnected = false ∧
       startStreamRequest ∉ (startStreamAuto conn incoming).sent) := by
  constructor
  · intro hr
    unfold startStreamAuto
    simp only [hr, if_true]
    have hmem : startStreamRequest ∈
        (connect "localhost" 4455 (some "Oindia001") conn incoming).sent ++
        (startStreaming
          (connect "localhost" 4455 (some "Oindia001") conn incoming).rest).sent := by
      rw [startStreaming_sent]
      simp
    rcases hs : (startStreaming
        (connect "localhost" 4455 (some "Oindia001") conn incoming).rest).ret with
      e | u
    · exact ⟨rfl, hmem, fun e' he' => by
        injection he' with h'
        subst h'
        rfl⟩
    · exact ⟨rfl, hmem, fun e' he' => by simp at he'⟩
  · intro hr
    unfold startStreamAuto
    simp only [hr, if_false]
    refine ⟨rfl, fun hmem => ?_⟩
    have := connect_sent_op1 "localhost" 4455 (some "Oindia001") conn incoming
      startStreamRequest hmem
    simp [startStreamRequest, Json.get] at this

/-- The method `connect()` returns `true` exactly when the transport opened, a Greeting
and then an Acknowledgement arrived, `_send_identify` succeeded, and the
Acknowledgement's `op` is the number 2. -/
theorem connect_true_iff (host : String) (port : Int) (password : Option String)
    (conn : Except PyErr Unit) (incoming : Incoming) :
    (connect host port password conn incoming).ret = true ↔
      ∃ hello ack rest, conn = .ok () ∧
        incoming = .ok hello :: .ok ack :: rest ∧
        (sendIdentify password hello).1 = .ok () ∧
        ack.get "op" = .ok (.num 2) := by
  unfold connect connectBody
  rcases conn with e | ⟨⟩
  · rcases e <;> simp
  · rcases incoming with _ | ⟨e0, rest0⟩
    · simp [recv]
    · rcases e0 with e | hello
      · rcases e <;> simp [recv]
      · rcases hsi : sendIdentify password hello with ⟨ri, si, pi⟩
        rcases ri with e | ⟨⟩
        · rcases e <;> simp [recv, hsi] <;>
            (intro x x1 hx x2 hr hsx; subst hx; rw [hsi] at hsx; simp at hsx)
        · rcases rest0 with _ | ⟨e1, rest1⟩
          · simp [recv, hsi]
          · rcases e1 with e | ack
            · rcases e <;> simp [recv, hsi]
            · rcases hop : ack.get "op" with e | opJ
              · rcases e <;> simp [recv, hsi, hop]
              · rcases opJ with _ | b | n | s | xs | fs
                · simp [recv, hsi, hop]
                · simp [recv, hsi, hop]
                · by_cases hn : n = 2 <;> simp [recv, hsi, hop, hn]
                  exact ⟨hello, ack, ⟨rfl, rfl⟩, by rw [hsi], by rw [hop, hn]⟩
                · simp [recv, hsi, hop]
                · simp [recv, hsi, hop]
                · simp [recv, hsi, hop]

/-- C10: `connect()` is total over handshake outcomes — the embedding returns
a boolean for every transport/server behaviour, the `except` clauses turning
every raised exception into `False` — and it returns `true` exactly when the
connection opened, two messages arrived, Identify was sent successfully and
the acknowledgement's `op` equals 2; in particular `true` only on an `op = 2`
acknowledgement. -/
theorem connect_returns_bool_true_only_op2 (host : String) (port : Int)
    (password : Option String) (conn : Except PyErr Unit) (incoming : Incoming) :
    (connect host port password conn incoming).ret = true ↔
      ∃ hello ack rest, conn = .ok () ∧
        incoming = .ok hello :: .ok ack :: rest ∧
        (sendIdentify password hello).1 = .ok () ∧
        ack.get "op" = .ok (.num 2) :=
  connect_true_iff host port password conn incoming

/-- C7: when the second received message (the Identify Acknowledgement) has an
`op` field that is not the number 2 — including a missing or non-numeric
`op` — `connect()` returns `false`: the session never reaches Ready. -/
theorem connect_bad_ack_false (host : String) (port : Int)
    (password : Option String) (hello ack : Json) (rest : Incoming)
    (hop : ∀ n : Int, ack.get "op" = .ok (.num n) → n ≠ 2) :
    (connect host port password (.ok ())
      (.ok hello :: .ok ack :: rest)).ret = false := by
  rcases hb : (connect host port password (.ok ())
      (.ok hello :: .ok ack :: rest)).ret
  · rfl
  · exfalso
    obtain ⟨hello', ack', rest', -, hlist, -, hop2⟩ :=
      (connect_true_iff host port password (.ok ())
        (.ok hello :: .ok ack :: rest)).mp hb
    obtain ⟨h1, h2, -⟩ : hello = hello' ∧ ack = ack' ∧ rest = rest' := by
      simpa using hlist
    exact hop 2 (h2 ▸ hop2) rfl

/-- C7 witness: an acknowledgement with `op = 5` after a no-auth Greeting. -/
theorem connect_bad_ack_false_witness :
    (connect "localhost" 4455 none (.ok ())
      [.ok helloNoAuth, .ok badAck]).ret = false :=
  connect_bad_ack_false "localhost" 4455 none helloNoAuth badAck []
    (by intro n h; simp [badAck, Json.get] at h; omega)

end OBS

